import Mathlib

/-!
Verification of the ESPHome media-player adapter
(`src/homeassistant/components/esphome/media_player.py`).

The adapter translates between a device RPC client's vocabulary
(`aioesphomeapi` enums, command calls) and the home-automation host's
domain vocabulary (domain enums, feature-flag bitmask).  We embed the
data model and every command method of the source file; external
collaborators (the enum-mapper utility, the host's media-source
resolution and URL processing, the domain flag constants) are modelled
from the spec where their code is not included under `src/`.

Protocol floats (volume, seek position) are only carried through
uninterpreted by this layer, so they are modelled as rationals.
-/

/-- Device-protocol play states (`aioesphomeapi.MediaPlayerState`).
`NONE` is the protocol's unset/default value; it is the one value the
static mapping table does not list. -/
inductive EspMediaPlayerState
  | NONE
  | IDLE
  | PLAYING
  | PAUSED
  | ON
  | OFF
  | STANDBY
  | BUFFERING
  deriving DecidableEq, Fintype

/-- Device-protocol repeat modes (`aioesphomeapi.MediaPlayerRepeatMode`).
`NONE` is the protocol's unset/default value, absent from the table. -/
inductive EspRepeatMode
  | NONE
  | OFF
  | ONE
  | ALL
  deriving DecidableEq, Fintype

/-- Host-domain media-player states (`homeassistant.components.media_player.MediaPlayerState`). -/
inductive MediaPlayerState
  | OFF
  | ON
  | IDLE
  | PLAYING
  | PAUSED
  | STANDBY
  | BUFFERING
  deriving DecidableEq, Fintype

/-- Host-domain repeat modes (`homeassistant.components.media_player.RepeatMode`). -/
inductive RepeatMode
  | OFF
  | ONE
  | ALL
  deriving DecidableEq, Fintype

/-- Device-protocol command discriminants (`aioesphomeapi.MediaPlayerCommand`),
covering the discriminants the adapter uses. -/
inductive MediaPlayerCommand
  | PLAY
  | PAUSE
  | STOP
  | MUTE
  | UNMUTE
  | SEEK
  | VOLUME_SET
  | VOLUME_UP
  | VOLUME_DOWN
  | PREVIOUS_TRACK
  | NEXT_TRACK
  | TURN_ON
  | TURN_OFF
  | SELECT_SOURCE
  | SELECT_SOUND_MODE
  | CLEAR_PLAYLIST
  | SHUFFLE_SET
  deriving DecidableEq

/-- Modelled from the spec: the failure raised by the enum-mapper utility
(`.enum_mapper`, a repository module not included under `src/`) when a
queried value is absent from the table; it names the offending raw value. -/
structure UnmappedValueError (α : Type) where
  value : α
  deriving DecidableEq

/-- Modelled from the spec: the enum-mapper utility
(`.enum_mapper.EsphomeEnumMapper`, a repository module not included under
`src/`): a fixed bidirectional table between a device-protocol enum and the
host's domain enum, built once and read-only thereafter. -/
structure EsphomeEnumMapper (α β : Type) where
  mapping : List (α × β)

/-- Modelled from the spec: device → domain lookup.  A value present in the
table maps to its unique counterpart; a value absent from the table fails
with an `UnmappedValueError` naming the offending raw value — it must not
silently default. -/
def EsphomeEnumMapper.from_esphome [DecidableEq α] (m : EsphomeEnumMapper α β)
    (v : α) : Except (UnmappedValueError α) β :=
  match m.mapping.find? (fun p => decide (p.1 = v)) with
  | some p => .ok p.2
  | none => .error ⟨v⟩

/-- Modelled from the spec: domain → device reverse lookup, used when
translating an inbound host command into the device-protocol value of the
outbound payload. -/
def EsphomeEnumMapper.from_hass [DecidableEq β] (m : EsphomeEnumMapper α β)
    (v : β) : Except (UnmappedValueError β) α :=
  match m.mapping.find? (fun p => decide (p.2 = v)) with
  | some p => .ok p.1
  | none => .error ⟨v⟩

/-- The static play-state table (`_STATES` in the source). -/
def _STATES : EsphomeEnumMapper EspMediaPlayerState MediaPlayerState :=
  ⟨[(.IDLE, .IDLE),
    (.PLAYING, .PLAYING),
    (.PAUSED, .PAUSED),
    (.ON, .ON),
    (.OFF, .OFF),
    (.STANDBY, .STANDBY),
    (.BUFFERING, .BUFFERING)]⟩

/-- The static repeat-mode table (`_REPEAT_MODES` in the source). -/
def _REPEAT_MODES : EsphomeEnumMapper EspRepeatMode RepeatMode :=
  ⟨[(.OFF, .OFF),
    (.ONE, .ONE),
    (.ALL, .ALL)]⟩

/- Modelled from the spec: the host domain's feature-flag constants
(`homeassistant.components.media_player.MediaPlayerEntityFeature`, repository
code not included under `src/`).  Each capability contributes its own
distinct bit(s) of the domain bitmask; the numeric values are the host's. -/
namespace MediaPlayerEntityFeature

def PAUSE : Nat := 1
def SEEK : Nat := 2
def VOLUME_SET : Nat := 4
def VOLUME_MUTE : Nat := 8
def PREVIOUS_TRACK : Nat := 16
def NEXT_TRACK : Nat := 32
def TURN_ON : Nat := 128
def TURN_OFF : Nat := 256
def PLAY_MEDIA : Nat := 512
def VOLUME_STEP : Nat := 1024
def SELECT_SOURCE : Nat := 2048
def STOP : Nat := 4096
def CLEAR_PLAYLIST : Nat := 8192
def PLAY : Nat := 16384
def SHUFFLE_SET : Nat := 32768
def SELECT_SOUND_MODE : Nat := 65536
def BROWSE_MEDIA : Nat := 131072
def REPEAT_SET : Nat := 262144

end MediaPlayerEntityFeature

/-- The static capability descriptor (`aioesphomeapi.MediaPlayerInfo`):
the device key plus the boolean capability fields read by
`supported_features`, fixed at discovery time. -/
structure MediaPlayerInfo where
  key : Nat
  supports_pause : Bool
  supports_seek : Bool
  supports_volume_set : Bool
  supports_volume_mute : Bool
  supports_previous_track : Bool
  supports_next_track : Bool
  supports_turn_on : Bool
  supports_turn_off : Bool
  supports_play_media : Bool
  supports_volume_step : Bool
  supports_select_source : Bool
  supports_stop : Bool
  supports_clear_playlist : Bool
  supports_play : Bool
  supports_shuffle_set : Bool
  supports_select_sound_mode : Bool
  supports_repeat_set : Bool
  deriving DecidableEq

/-- The state snapshot (`aioesphomeapi.MediaPlayerEntityState`): the
immutable, wholesale-replaced value pushed by the device connection. -/
structure MediaPlayerEntityState where
  state : EspMediaPlayerState
  volume : ℚ
  muted : Bool
  source : String
  source_list : List String
  sound_mode : String
  sound_mode_list : List String
  repeat_mode : EspRepeatMode
  deriving DecidableEq

/-- The adapter entity (`EsphomeMediaPlayer`): it holds the static
capability descriptor and, once the first snapshot has arrived, a
reference to the latest state snapshot (`none` before that; the
`esphome_state_property` guard is modelled by this `Option`). -/
structure EsphomeMediaPlayer where
  _static_info : MediaPlayerInfo
  _state : Option MediaPlayerEntityState
  deriving DecidableEq

namespace EsphomeMediaPlayer

/-- `state` property: snapshot-guarded; maps the device play state through
`_STATES.from_esphome` (which may fail on an unmapped value). -/
def state (e : EsphomeMediaPlayer) :
    Except (UnmappedValueError EspMediaPlayerState) (Option MediaPlayerState) :=
  match e._state with
  | none => .ok none
  | some s => (_STATES.from_esphome s.state).map some

/-- `volume_level` property: snapshot-guarded passthrough of the volume. -/
def volume_level (e : EsphomeMediaPlayer) : Option ℚ :=
  match e._state with
  | none => none
  | some s => some s.volume

/-- `is_volume_muted` property: snapshot-guarded passthrough. -/
def is_volume_muted (e : EsphomeMediaPlayer) : Option Bool :=
  match e._state with
  | none => none
  | some s => some s.muted

/-- `source` property: snapshot-guarded passthrough. -/
def source (e : EsphomeMediaPlayer) : Option String :=
  match e._state with
  | none => none
  | some s => some s.source

/-- `source_list` property: snapshot-guarded passthrough. -/
def source_list (e : EsphomeMediaPlayer) : Option (List String) :=
  match e._state with
  | none => none
  | some s => some s.source_list

/-- `sound_mode` property: snapshot-guarded passthrough. -/
def sound_mode (e : EsphomeMediaPlayer) : Option String :=
  match e._state with
  | none => none
  | some s => some s.sound_mode

/-- `sound_mode_list` property: snapshot-guarded passthrough. -/
def sound_mode_list (e : EsphomeMediaPlayer) : Option (List String) :=
  match e._state with
  | none => none
  | some s => some s.sound_mode_list

/-- `repeat` property: snapshot-guarded; maps the device repeat mode
through `_REPEAT_MODES.from_esphome`. -/
def repeat_prop (e : EsphomeMediaPlayer) :
    Except (UnmappedValueError EspRepeatMode) (Option RepeatMode) :=
  match e._state with
  | none => .ok none
  | some s => (_REPEAT_MODES.from_esphome s.repeat_mode).map some

/-- `supported_features` property: folds the capability booleans of the
static descriptor into the domain feature bitmask, exactly in the
source's order; it reads only `_static_info`, never the snapshot. -/
def supported_features (e : EsphomeMediaPlayer) : Nat :=
  let flags : Nat := 0
  let flags := if e._static_info.supports_pause then
    flags ||| MediaPlayerEntityFeature.PAUSE else flags
  let flags := if e._static_info.supports_seek then
    flags ||| MediaPlayerEntityFeature.SEEK else flags
  let flags := if e._static_info.supports_volume_set then
    flags ||| MediaPlayerEntityFeature.VOLUME_SET else flags
  let flags := if e._static_info.supports_volume_mute then
    flags ||| MediaPlayerEntityFeature.VOLUME_MUTE else flags
  let flags := if e._static_info.supports_previous_track then
    flags ||| MediaPlayerEntityFeature.PREVIOUS_TRACK else flags
  let flags := if e._static_info.supports_next_track then
    flags ||| MediaPlayerEntityFeature.NEXT_TRACK else flags
  let flags := if e._static_info.supports_turn_on then
    flags ||| MediaPlayerEntityFeature.TURN_ON else flags
  let flags := if e._static_info.supports_turn_off then
    flags ||| MediaPlayerEntityFeature.TURN_OFF else flags
  let flags := if e._static_info.supports_play_media then
    flags ||| (MediaPlayerEntityFeature.PLAY_MEDIA ||| MediaPlayerEntityFeature.BROWSE_MEDIA)
    else flags
  let flags := if e._static_info.supports_volume_step then
    flags ||| MediaPlayerEntityFeature.VOLUME_STEP else flags
  let flags := if e._static_info.supports_select_source then
    flags ||| MediaPlayerEntityFeature.SELECT_SOURCE else flags
  let flags := if e._static_info.supports_stop then
    flags ||| MediaPlayerEntityFeature.STOP else flags
  let flags := if e._static_info.supports_clear_playlist then
    flags ||| MediaPlayerEntityFeature.CLEAR_PLAYLIST else flags
  let flags := if e._static_info.supports_play then
    flags ||| MediaPlayerEntityFeature.PLAY else flags
  let flags := if e._static_info.supports_shuffle_set then
    flags ||| MediaPlayerEntityFeature.SHUFFLE_SET else flags
  let flags := if e._static_info.supports_select_sound_mode then
    flags ||| MediaPlayerEntityFeature.SELECT_SOUND_MODE else flags
  let flags := if e._static_info.supports_repeat_set then
    flags ||| MediaPlayerEntityFeature.REPEAT_SET else flags
  flags

end EsphomeMediaPlayer

/-- One outbound command-submission call to the device client
(`self._client.media_player_command(...)`): the device key, an optional
command discriminant, and the optional named parameters; parameters not
passed at a call site stay `none`. -/
structure MediaPlayerCall where
  key : Nat
  command : Option MediaPlayerCommand := none
  seek_position : Option ℚ := none
  volume_level : Option ℚ := none
  source : Option String := none
  sound_mode : Option String := none
  shuffle_set : Option Bool := none
  repeat_param : Option EspRepeatMode := none
  media_url : Option String := none
  deriving DecidableEq

/-- Modelled from the spec: the host collaborators used by `async_play_media`
(`media_source.is_media_source_id`, `media_source.async_resolve_media`
returning a value whose `url` we keep, and `async_process_play_media_url`) —
host media-source resolution and URL processing, repository code not
included under `src/`.  They are uninterpreted functions of the
media identifier / URL. -/
structure HostEnv where
  is_media_source_id : String → Bool
  resolve_url : String → String
  process_play_media_url : String → String

namespace EsphomeMediaPlayer

/-- `async_media_pause`: the list of outbound client calls the invocation
makes, in order (likewise for every command method below). -/
def async_media_pause (e : EsphomeMediaPlayer) : List MediaPlayerCall :=
  [{ key := e._static_info.key, command := some .PAUSE }]

/-- `async_media_seek`. -/
def async_media_seek (e : EsphomeMediaPlayer) (position : ℚ) : List MediaPlayerCall :=
  [{ key := e._static_info.key, command := some .SEEK, seek_position := some position }]

/-- `async_set_volume_level`. -/
def async_set_volume_level (e : EsphomeMediaPlayer) (volume : ℚ) : List MediaPlayerCall :=
  [{ key := e._static_info.key, command := some .VOLUME_SET, volume_level := some volume }]

/-- `async_mute_volume`: discriminant `MUTE` when muting, `UNMUTE` when not. -/
def async_mute_volume (e : EsphomeMediaPlayer) (mute : Bool) : List MediaPlayerCall :=
  [{ key := e._static_info.key,
     command := some (if mute then .MUTE else .UNMUTE) }]

/-- `async_media_previous_track`. -/
def async_media_previous_track (e : EsphomeMediaPlayer) : List MediaPlayerCall :=
  [{ key := e._static_info.key, command := some .PREVIOUS_TRACK }]

/-- `async_media_next_track`. -/
def async_media_next_track (e : EsphomeMediaPlayer) : List MediaPlayerCall :=
  [{ key := e._static_info.key, command := some .NEXT_TRACK }]

/-- `async_turn_on`. -/
def async_turn_on (e : EsphomeMediaPlayer) : List MediaPlayerCall :=
  [{ key := e._static_info.key, command := some .TURN_ON }]

/-- `async_turn_off`. -/
def async_turn_off (e : EsphomeMediaPlayer) : List MediaPlayerCall :=
  [{ key := e._static_info.key, command := some .TURN_OFF }]

/-- `async_play_media`: when the media identifier is a media-source id it is
first resolved to the sourced media's URL; the result is then passed through
the host's `async_process_play_media_url`; the single client call carries
that URL as `media_url` and passes no `command=` discriminant. -/
def async_play_media (e : EsphomeMediaPlayer) (env : HostEnv)
    (_media_type : String) (media_id : String) : List MediaPlayerCall :=
  let media_id :=
    if env.is_media_source_id media_id then env.resolve_url media_id else media_id
  let media_id := env.process_play_media_url media_id
  [{ key := e._static_info.key, media_url := some media_id }]

/-- `async_volume_up`. -/
def async_volume_up (e : EsphomeMediaPlayer) : List MediaPlayerCall :=
  [{ key := e._static_info.key, command := some .VOLUME_UP }]

/-- `async_volume_down`. -/
def async_volume_down (e : EsphomeMediaPlayer) : List MediaPlayerCall :=
  [{ key := e._static_info.key, command := some .VOLUME_DOWN }]

/-- `async_select_source`. -/
def async_select_source (e : EsphomeMediaPlayer) (src : String) : List MediaPlayerCall :=
  [{ key := e._static_info.key, command := some .SELECT_SOURCE, source := some src }]

/-- `async_media_stop`. -/
def async_media_stop (e : EsphomeMediaPlayer) : List MediaPlayerCall :=
  [{ key := e._static_info.key, command := some .STOP }]

/-- `async_clear_playlist`. -/
def async_clear_playlist (e : EsphomeMediaPlayer) : List MediaPlayerCall :=
  [{ key := e._static_info.key, command := some .CLEAR_PLAYLIST }]

/-- `async_media_play`. -/
def async_media_play (e : EsphomeMediaPlayer) : List MediaPlayerCall :=
  [{ key := e._static_info.key, command := some .PLAY }]

/-- `async_set_shuffle`. -/
def async_set_shuffle (e : EsphomeMediaPlayer) (shuffle : Bool) : List MediaPlayerCall :=
  [{ key := e._static_info.key, command := some .SHUFFLE_SET, shuffle_set := some shuffle }]

/-- `async_select_sound_mode`. -/
def async_select_sound_mode (e : EsphomeMediaPlayer) (sm : String) : List MediaPlayerCall :=
  [{ key := e._static_info.key, command := some .SELECT_SOUND_MODE, sound_mode := some sm }]

/-- `async_set_repeat`: note the source passes `MediaPlayerCommand.SELECT_SOUND_MODE`
as the discriminant; the repeat parameter is the reverse-mapped domain value
(`_REPEAT_MODES.from_hass`, whose failure would propagate). -/
def async_set_repeat (e : EsphomeMediaPlayer) (r : RepeatMode) :
    Except (UnmappedValueError RepeatMode) (List MediaPlayerCall) := do
  let d ← _REPEAT_MODES.from_hass r
  return [{ key := e._static_info.key, command := some .SELECT_SOUND_MODE,
            repeat_param := some d }]

end EsphomeMediaPlayer

/-- A host-initiated command-method invocation of the adapter, with its
arguments (the inbound command surface of the spec). -/
inductive Invocation
  | media_pause
  | media_play
  | media_stop
  | media_seek (position : ℚ)
  | set_volume_level (volume : ℚ)
  | mute_volume (mute : Bool)
  | media_previous_track
  | media_next_track
  | turn_on
  | turn_off
  | play_media (media_type : String) (media_id : String)
  | volume_up
  | volume_down
  | select_source (src : String)
  | clear_playlist
  | set_shuffle (shuffle : Bool)
  | select_sound_mode (sm : String)
  | set_repeat (r : RepeatMode)
  deriving DecidableEq

/-- Whether an invocation is a play-media invocation. -/
def Invocation.isPlayMedia : Invocation → Bool
  | .play_media _ _ => true
  | _ => false

/-- Dispatch a host-initiated invocation to the corresponding adapter
method, yielding the list of outbound client calls it submits (an
enum-mapper failure in `async_set_repeat` propagates as the error). -/
def dispatch (e : EsphomeMediaPlayer) (env : HostEnv) :
    Invocation → Except (UnmappedValueError RepeatMode) (List MediaPlayerCall)
  | .media_pause => .ok e.async_media_pause
  | .media_play => .ok e.async_media_play
  | .media_stop => .ok e.async_media_stop
  | .media_seek p => .ok (e.async_media_seek p)
  | .set_volume_level v => .ok (e.async_set_volume_level v)
  | .mute_volume m => .ok (e.async_mute_volume m)
  | .media_previous_track => .ok e.async_media_previous_track
  | .media_next_track => .ok e.async_media_next_track
  | .turn_on => .ok e.async_turn_on
  | .turn_off => .ok e.async_turn_off
  | .play_media t i => .ok (e.async_play_media env t i)
  | .volume_up => .ok e.async_volume_up
  | .volume_down => .ok e.async_volume_down
  | .select_source s => .ok (e.async_select_source s)
  | .clear_playlist => .ok e.async_clear_playlist
  | .set_shuffle s => .ok (e.async_set_shuffle s)
  | .select_sound_mode s => .ok (e.async_select_sound_mode s)
  | .set_repeat r => e.async_set_repeat r

/-- Decidable equality for `Except`, used to evaluate the mapper's results
on concrete inputs. -/
instance {ε α : Type} [DecidableEq ε] [DecidableEq α] : DecidableEq (Except ε α) := fun x y =>
  match x, y with
  | .ok a, .ok b =>
    if h : a = b then .isTrue (by rw [h]) else .isFalse (by simp [h])
  | .error a, .error b =>
    if h : a = b then .isTrue (by rw [h]) else .isFalse (by simp [h])
  | .ok _, .error _ => .isFalse (by simp)
  | .error _, .ok _ => .isFalse (by simp)

/-- C4: for every value absent from an enum mapper's table, the
device-to-domain lookup fails with an `UnmappedValueError` naming the
offending raw value; it never returns a default value (the success
branch is never taken). -/
theorem from_esphome_unmapped_errors {α β : Type} [DecidableEq α]
    (m : EsphomeEnumMapper α β) (v : α)
    (h : ∀ p ∈ m.mapping, p.1 ≠ v) :
    m.from_esphome v = .error ⟨v⟩ ∧ ∀ b, m.from_esphome v ≠ .ok b := by
  have hfind : m.mapping.find? (fun p => decide (p.1 = v)) = none := by
    rw [List.find?_eq_none]
    intro p hp
    simp [h p hp]
  unfold EsphomeEnumMapper.from_esphome
  rw [hfind]
  exact ⟨rfl, fun b hb => by cases hb⟩

/-- Witness for C4: the protocol's unset play state `NONE` is absent from
the static `_STATES` table, and its lookup fails naming `NONE`. -/
theorem from_esphome_unmapped_errors_witness :
    (∀ p ∈ _STATES.mapping, p.1 ≠ EspMediaPlayerState.NONE) ∧
    _STATES.from_esphome EspMediaPlayerState.NONE = .error ⟨EspMediaPlayerState.NONE⟩ :=
  ⟨by decide, (from_esphome_unmapped_errors _STATES EspMediaPlayerState.NONE (by decide)).1⟩

/-- C9: every device value listed in the `_STATES` table maps to its domain
counterpart, and the reverse lookup maps that counterpart back to it;
likewise for `_REPEAT_MODES` — the two tables are bijections on their
listed entries. -/
theorem states_and_repeat_tables_bijective :
    (∀ v b, (v, b) ∈ _STATES.mapping →
      _STATES.from_esphome v = .ok b ∧ _STATES.from_hass b = .ok v) ∧
    (∀ v b, (v, b) ∈ _REPEAT_MODES.mapping →
      _REPEAT_MODES.from_esphome v = .ok b ∧ _REPEAT_MODES.from_hass b = .ok v) := by
  constructor
  · intro v b
    cases v <;> cases b <;> decide
  · intro v b
    cases v <;> cases b <;> decide

/-- Witness for C9: the `PLAYING` entry round-trips through both lookups. -/
theorem states_and_repeat_tables_bijective_witness :
    ((EspMediaPlayerState.PLAYING, MediaPlayerState.PLAYING) ∈ _STATES.mapping) ∧
    _STATES.from_esphome EspMediaPlayerState.PLAYING = .ok MediaPlayerState.PLAYING ∧
    _STATES.from_hass MediaPlayerState.PLAYING = .ok EspMediaPlayerState.PLAYING :=
  ⟨by decide,
   (states_and_repeat_tables_bijective.1 _ _ (by decide)).1,
   (states_and_repeat_tables_bijective.1 _ _ (by decide)).2⟩

/-- C2: for every entity and every domain repeat mode, `async_set_repeat`
issues a single command request whose discriminant is
`SELECT_SOUND_MODE` (not a dedicated repeat-set discriminant). -/
theorem set_repeat_uses_select_sound_mode (e : EsphomeMediaPlayer) (r : RepeatMode) :
    ∃ c : MediaPlayerCall, e.async_set_repeat r = .ok [c] ∧
      c.command = some MediaPlayerCommand.SELECT_SOUND_MODE := by
  cases r <;> exact ⟨_, rfl, rfl⟩

/-- C3: `async_set_repeat ALL` issues exactly one command request, and its
repeat parameter is the reverse enum-mapper translation of the domain
value `ALL`, i.e. the device-protocol encoding `EspRepeatMode.ALL`. -/
theorem set_repeat_all_sends_device_all (e : EsphomeMediaPlayer) :
    _REPEAT_MODES.from_hass RepeatMode.ALL = .ok EspRepeatMode.ALL ∧
    ∃ c : MediaPlayerCall, e.async_set_repeat RepeatMode.ALL = .ok [c] ∧
      c.repeat_param = some EspRepeatMode.ALL :=
  ⟨rfl, _, rfl, rfl⟩

/-- C7: `async_mute_volume true` and `async_mute_volume false` issue
commands with two distinct discriminants (`MUTE` and `UNMUTE`), not a
single discriminant with a boolean payload. -/
theorem mute_and_unmute_distinct_discriminants (e : EsphomeMediaPlayer) :
    (∃ c : MediaPlayerCall, e.async_mute_volume true = [c] ∧
      c.command = some MediaPlayerCommand.MUTE) ∧
    (∃ c : MediaPlayerCall, e.async_mute_volume false = [c] ∧
      c.command = some MediaPlayerCommand.UNMUTE) ∧
    MediaPlayerCommand.MUTE ≠ MediaPlayerCommand.UNMUTE :=
  ⟨⟨_, rfl, rfl⟩, ⟨_, rfl, rfl⟩, by decide⟩

/-- A concrete capability descriptor with every capability granted
(device key 7), used to evaluate the adapter on concrete inputs. -/
def info0 : MediaPlayerInfo :=
  ⟨7, true, true, true, true, true, true, true, true, true,
   true, true, true, true, true, true, true, true⟩

/-- A concrete state snapshot. -/
def snapshot0 : MediaPlayerEntityState :=
  ⟨.PLAYING, 1 / 2, false, "aux", ["aux"], "stereo", ["stereo"], .OFF⟩

/-- A concrete entity that has not yet received a snapshot. -/
def e0 : EsphomeMediaPlayer := ⟨info0, none⟩

/-- A concrete host environment in which no media identifier is a
media-source id and URL processing is the identity. -/
def env0 : HostEnv := ⟨fun _ => false, id, id⟩

/-- A concrete host environment in which every media identifier is a
media-source id, resolution yields `/media/song.mp3`, and the host's URL
processing prepends the host's base URL. -/
def env1 : HostEnv :=
  ⟨fun _ => true,
   fun _ => "/media/song.mp3",
   fun u => "http://hass.local:8123" ++ u⟩

/-- The descriptor of claim C6: `supports_pause` and `supports_play_media`
true, every other capability false. -/
def info_c6 : MediaPlayerInfo :=
  ⟨1, true, false, false, false, false, false, false, false, true,
   false, false, false, false, false, false, false, false⟩

/-- C6: projecting the descriptor with only `supports_pause` and
`supports_play_media` set yields exactly `PAUSE ||| PLAY_MEDIA ||| BROWSE_MEDIA`. -/
theorem supported_features_pause_play_media :
    EsphomeMediaPlayer.supported_features ⟨info_c6, none⟩ =
      MediaPlayerEntityFeature.PAUSE ||| MediaPlayerEntityFeature.PLAY_MEDIA |||
        MediaPlayerEntityFeature.BROWSE_MEDIA := by
  decide

/-- C10: `supported_features` reads only the static capability descriptor:
any two entities with the same descriptor project the same bitmask
whatever their snapshots; the projection is already defined for an entity
that has received no snapshot (and is unchanged once one arrives), while
the snapshot-guarded properties (here `volume_level`) return `none`
before the first snapshot. -/
theorem supported_features_independent_of_snapshot :
    (∀ e1 e2 : EsphomeMediaPlayer, e1._static_info = e2._static_info →
      e1.supported_features = e2.supported_features) ∧
    (∀ (i : MediaPlayerInfo) (s : Option MediaPlayerEntityState),
      EsphomeMediaPlayer.supported_features ⟨i, s⟩ =
        EsphomeMediaPlayer.supported_features ⟨i, none⟩) ∧
    (∀ i : MediaPlayerInfo, EsphomeMediaPlayer.volume_level ⟨i, none⟩ = none) := by
  refine ⟨?_, ?_, ?_⟩
  · rintro ⟨i1, s1⟩ ⟨i2, s2⟩ h
    cases h
    rfl
  · intro i s
    rfl
  · intro i
    rfl

/-- Witness for C10: two concrete entities sharing `info0`, one without a
snapshot and one with `snapshot0`, project the same bitmask. -/
theorem supported_features_independent_of_snapshot_witness :
    (⟨info0, none⟩ : EsphomeMediaPlayer)._static_info =
      (⟨info0, some snapshot0⟩ : EsphomeMediaPlayer)._static_info ∧
    (⟨info0, none⟩ : EsphomeMediaPlayer).supported_features =
      (⟨info0, some snapshot0⟩ : EsphomeMediaPlayer).supported_features :=
  ⟨rfl, supported_features_independent_of_snapshot.1 _ _ rfl⟩

/-- The seventeen capability booleans of the static descriptor,
enumerated so that "flipping one capability" can be quantified. -/
inductive Capability
  | pause
  | seek
  | volume_set
  | volume_mute
  | previous_track
  | next_track
  | turn_on
  | turn_off
  | play_media
  | volume_step
  | select_source
  | stop
  | clear_playlist
  | play
  | shuffle_set
  | select_sound_mode
  | repeat_set
  deriving DecidableEq, Fintype

/-- Read one capability boolean of a descriptor. -/
def getCap : Capability → MediaPlayerInfo → Bool
  | .pause, i => i.supports_pause
  | .seek, i => i.supports_seek
  | .volume_set, i => i.supports_volume_set
  | .volume_mute, i => i.supports_volume_mute
  | .previous_track, i => i.supports_previous_track
  | .next_track, i => i.supports_next_track
  | .turn_on, i => i.supports_turn_on
  | .turn_off, i => i.supports_turn_off
  | .play_media, i => i.supports_play_media
  | .volume_step, i => i.supports_volume_step
  | .select_source, i => i.supports_select_source
  | .stop, i => i.supports_stop
  | .clear_playlist, i => i.supports_clear_playlist
  | .play, i => i.supports_play
  | .shuffle_set, i => i.supports_shuffle_set
  | .select_sound_mode, i => i.supports_select_sound_mode
  | .repeat_set, i => i.supports_repeat_set

/-- Replace one capability boolean of a descriptor, leaving the rest. -/
def setCap : Capability → Bool → MediaPlayerInfo → MediaPlayerInfo
  | .pause, b, i => { i with supports_pause := b }
  | .seek, b, i => { i with supports_seek := b }
  | .volume_set, b, i => { i with supports_volume_set := b }
  | .volume_mute, b, i => { i with supports_volume_mute := b }
  | .previous_track, b, i => { i with supports_previous_track := b }
  | .next_track, b, i => { i with supports_next_track := b }
  | .turn_on, b, i => { i with supports_turn_on := b }
  | .turn_off, b, i => { i with supports_turn_off := b }
  | .play_media, b, i => { i with supports_play_media := b }
  | .volume_step, b, i => { i with supports_volume_step := b }
  | .select_source, b, i => { i with supports_select_source := b }
  | .stop, b, i => { i with supports_stop := b }
  | .clear_playlist, b, i => { i with supports_clear_playlist := b }
  | .play, b, i => { i with supports_play := b }
  | .shuffle_set, b, i => { i with supports_shuffle_set := b }
  | .select_sound_mode, b, i => { i with supports_select_sound_mode := b }
  | .repeat_set, b, i => { i with supports_repeat_set := b }

/-- The domain flag bit(s) `supported_features` associates with one
capability (two bits for `play_media`, one for each of the rest). -/
def capFlags : Capability → Nat
  | .pause => MediaPlayerEntityFeature.PAUSE
  | .seek => MediaPlayerEntityFeature.SEEK
  | .volume_set => MediaPlayerEntityFeature.VOLUME_SET
  | .volume_mute => MediaPlayerEntityFeature.VOLUME_MUTE
  | .previous_track => MediaPlayerEntityFeature.PREVIOUS_TRACK
  | .next_track => MediaPlayerEntityFeature.NEXT_TRACK
  | .turn_on => MediaPlayerEntityFeature.TURN_ON
  | .turn_off => MediaPlayerEntityFeature.TURN_OFF
  | .play_media => MediaPlayerEntityFeature.PLAY_MEDIA ||| MediaPlayerEntityFeature.BROWSE_MEDIA
  | .volume_step => MediaPlayerEntityFeature.VOLUME_STEP
  | .select_source => MediaPlayerEntityFeature.SELECT_SOURCE
  | .stop => MediaPlayerEntityFeature.STOP
  | .clear_playlist => MediaPlayerEntityFeature.CLEAR_PLAYLIST
  | .play => MediaPlayerEntityFeature.PLAY
  | .shuffle_set => MediaPlayerEntityFeature.SHUFFLE_SET
  | .select_sound_mode => MediaPlayerEntityFeature.SELECT_SOUND_MODE
  | .repeat_set => MediaPlayerEntityFeature.REPEAT_SET

/-- Flip one capability of an entity's static descriptor to true. -/
def setCapTrue (c : Capability) (e : EsphomeMediaPlayer) : EsphomeMediaPlayer :=
  { e with _static_info := setCap c true e._static_info }

/-- Pull a conditionally OR-ed flag out of the accumulator. -/
lemma lor_if_step (p : Prop) [Decidable p] (a f : Nat) :
    (if p then a ||| f else a) = a ||| (if p then f else 0) := by
  split <;> simp

/-- `&&&` distributes over `|||` on `Nat`. -/
lemma lor_land_distrib (a b c : Nat) :
    (a ||| b) &&& c = (a &&& c) ||| (b &&& c) := by
  apply Nat.eq_of_testBit_eq
  intro i
  simp only [Nat.testBit_lor, Nat.testBit_land]
  cases a.testBit i <;> cases b.testBit i <;> cases c.testBit i <;> rfl

/-- `&&&` commutes with a conditional flag. -/
lemma ite_land (p : Prop) [Decidable p] (f c : Nat) :
    (if p then f else 0) &&& c = if p then f &&& c else 0 := by
  split <;> simp

instance : Std.Associative (fun a b : Nat => a ||| b) := ⟨Nat.lor_assoc⟩

instance : Std.Commutative (fun a b : Nat => a ||| b) := ⟨Nat.lor_comm⟩

/-- `(a ||| b) &&& c` vanishes when both parts vanish. -/
lemma land_lor_zero {a b c : Nat} (h1 : a &&& c = 0) (h2 : b &&& c = 0) :
    (a ||| b) &&& c = 0 := by
  rw [lor_land_distrib, h1, h2]
  simp

/-- A conditional flag `&&&` a mask vanishes when the flag does. -/
lemma ite_land_zero (p : Prop) [Decidable p] {f c : Nat} (hfc : f &&& c = 0) :
    (if p then f else 0) &&& c = 0 := by
  split
  · exact hfc
  · simp

/-- Flipping one false capability to true ORs its flags into the mask. -/
lemma sf_setCapTrue (e : EsphomeMediaPlayer) (c : Capability)
    (h : getCap c e._static_info = false) :
    (setCapTrue c e).supported_features = e.supported_features ||| capFlags c := by
  cases c <;> simp only [getCap] at h <;>
    (simp [setCapTrue, setCap, EsphomeMediaPlayer.supported_features, h, lor_if_step, capFlags];
     try ac_rfl)

/-- A false capability's flag bits are absent from the projected mask. -/
lemma sf_land_capFlags (e : EsphomeMediaPlayer) (c : Capability)
    (h : getCap c e._static_info = false) :
    e.supported_features &&& capFlags c = 0 := by
  cases c <;> simp only [getCap] at h <;>
    (simp [EsphomeMediaPlayer.supported_features, h, lor_if_step];
     repeat' first
       | apply land_lor_zero
       | apply ite_land_zero) <;>
    decide

/-- C5: the feature projection is monotone in the capability descriptor:
a descriptor with every capability false projects to the zero bitmask,
and flipping any single capability boolean from false to true ORs in
exactly that capability's flag bit(s) — the new mask is the old mask OR
the capability's flags, and those flag bits were absent from the old
mask (so every other bit of the result is unchanged). -/
theorem supported_features_monotone :
    (∀ e : EsphomeMediaPlayer, (∀ c, getCap c e._static_info = false) →
      e.supported_features = 0) ∧
    (∀ (e : EsphomeMediaPlayer) (c : Capability), getCap c e._static_info = false →
      (setCapTrue c e).supported_features = e.supported_features ||| capFlags c ∧
      e.supported_features &&& capFlags c = 0) := by
  constructor
  · intro e h
    have h1 : e._static_info.supports_pause = false := h .pause
    have h2 : e._static_info.supports_seek = false := h .seek
    have h3 : e._static_info.supports_volume_set = false := h .volume_set
    have h4 : e._static_info.supports_volume_mute = false := h .volume_mute
    have h5 : e._static_info.supports_previous_track = false := h .previous_track
    have h6 : e._static_info.supports_next_track = false := h .next_track
    have h7 : e._static_info.supports_turn_on = false := h .turn_on
    have h8 : e._static_info.supports_turn_off = false := h .turn_off
    have h9 : e._static_info.supports_play_media = false := h .play_media
    have h10 : e._static_info.supports_volume_step = false := h .volume_step
    have h11 : e._static_info.supports_select_source = false := h .select_source
    have h12 : e._static_info.supports_stop = false := h .stop
    have h13 : e._static_info.supports_clear_playlist = false := h .clear_playlist
    have h14 : e._static_info.supports_play = false := h .play
    have h15 : e._static_info.supports_shuffle_set = false := h .shuffle_set
    have h16 : e._static_info.supports_select_sound_mode = false := h .select_sound_mode
    have h17 : e._static_info.supports_repeat_set = false := h .repeat_set
    simp [EsphomeMediaPlayer.supported_features,
      h1, h2, h3, h4, h5, h6, h7, h8, h9, h10, h11, h12, h13, h14, h15, h16, h17]
  · intro e c h
    exact ⟨sf_setCapTrue e c h, sf_land_capFlags e c h⟩

/-- A capability descriptor with every capability false. -/
def info_allfalse : MediaPlayerInfo :=
  ⟨0, false, false, false, false, false, false, false, false, false,
   false, false, false, false, false, false, false, false⟩

/-- Witness for C5: the all-false descriptor projects to zero, and
flipping `supports_seek` on the C6 descriptor (where it is false) ORs in
exactly the `SEEK` bit, which was absent. -/
theorem supported_features_monotone_witness :
    ((∀ c, getCap c (⟨info_allfalse, none⟩ : EsphomeMediaPlayer)._static_info = false) ∧
      (⟨info_allfalse, none⟩ : EsphomeMediaPlayer).supported_features = 0) ∧
    (getCap Capability.seek (⟨info_c6, none⟩ : EsphomeMediaPlayer)._static_info = false ∧
      (setCapTrue Capability.seek ⟨info_c6, none⟩).supported_features =
        (⟨info_c6, none⟩ : EsphomeMediaPlayer).supported_features ||| capFlags Capability.seek ∧
      (⟨info_c6, none⟩ : EsphomeMediaPlayer).supported_features &&&
        capFlags Capability.seek = 0) :=
  ⟨⟨by decide, supported_features_monotone.1 _ (by decide)⟩,
   ⟨by decide, (supported_features_monotone.2 _ _ (by decide)).1,
    (supported_features_monotone.2 _ _ (by decide)).2⟩⟩

/-- C1 (amended): every host-initiated command-method invocation submits
exactly one outbound command call, and that call carries the device key;
it carries a command discriminant for every method except play-media,
whose call passes no discriminant (only the key and the media URL). -/
theorem submits_one_keyed_call (e : EsphomeMediaPlayer) (env : HostEnv)
    (inv : Invocation) (calls : List MediaPlayerCall)
    (h : dispatch e env inv = .ok calls) :
    ∃ c, calls = [c] ∧ c.key = e._static_info.key ∧
      (c.command = none ↔ inv.isPlayMedia = true) := by
  cases inv <;>
    try (injection h with h2; subst h2;
         exact ⟨_, rfl, rfl, by simp [Invocation.isPlayMedia]⟩)
  case set_repeat r =>
    cases r <;> (injection h with h2; subst h2;
                 exact ⟨_, rfl, rfl, by simp [Invocation.isPlayMedia]⟩)

/-- Witness for C1 (amended): the pause invocation on a concrete entity
submits one call carrying key 7 and the `PAUSE` discriminant. -/
theorem submits_one_keyed_call_witness :
    dispatch e0 env0 Invocation.media_pause =
      .ok [{ key := 7, command := some MediaPlayerCommand.PAUSE }] ∧
    ∃ c, ([{ key := 7, command := some MediaPlayerCommand.PAUSE }] : List MediaPlayerCall) =
        [c] ∧ c.key = e0._static_info.key ∧
      (c.command = none ↔ Invocation.media_pause.isPlayMedia = true) :=
  ⟨rfl, submits_one_keyed_call e0 env0 Invocation.media_pause _ rfl⟩

/-- Counterexample to C1 as stated: a concrete play-media invocation
submits a call that carries the device key but no command discriminant,
so not every command call carries a discriminant. -/
theorem play_media_call_lacks_discriminant :
    dispatch e0 env0 (Invocation.play_media "music" "http://example.com/a.mp3") =
      .ok [{ key := 7, media_url := some "http://example.com/a.mp3" }] ∧
    ({ key := 7, media_url := some "http://example.com/a.mp3" } : MediaPlayerCall).command =
      none :=
  ⟨rfl, rfl⟩

/-- C8 (amended): when the media identifier is a media-source id, the
adapter issues exactly one command whose `media_url` is the host's URL
processing applied to the resolved URL — derived from the resolved URL,
not from the original identifier. -/
theorem play_media_sends_processed_resolved_url (e : EsphomeMediaPlayer)
    (env : HostEnv) (t media_id : String)
    (h : env.is_media_source_id media_id = true) :
    e.async_play_media env t media_id =
      [{ key := e._static_info.key,
         media_url := some (env.process_play_media_url (env.resolve_url media_id)) }] := by
  simp [EsphomeMediaPlayer.async_play_media, h]

/-- Witness for C8 (amended): in the concrete environment `env1` the
resolvable identifier yields one call carrying the processed resolved
URL. -/
theorem play_media_sends_processed_resolved_url_witness :
    env1.is_media_source_id "media-source://media_source/local/song.mp3" = true ∧
    e0.async_play_media env1 "music" "media-source://media_source/local/song.mp3" =
      [{ key := e0._static_info.key,
         media_url := some (env1.process_play_media_url
           (env1.resolve_url "media-source://media_source/local/song.mp3")) }] ∧
    env1.process_play_media_url
        (env1.resolve_url "media-source://media_source/local/song.mp3") =
      "http://hass.local:8123/media/song.mp3" :=
  ⟨rfl,
   play_media_sends_processed_resolved_url e0 env1 "music"
     "media-source://media_source/local/song.mp3" rfl,
   rfl⟩

/-- Counterexample to C8 as stated: in `env1` (host URL processing
prepends the base URL, as it does for media-source results) the issued
`media_url` is the processed URL, which differs from the resolved URL. -/
theorem play_media_url_differs_from_resolved_url :
    env1.is_media_source_id "media-source://media_source/local/song.mp3" = true ∧
    e0.async_play_media env1 "music" "media-source://media_source/local/song.mp3" =
      [{ key := 7, media_url := some "http://hass.local:8123/media/song.mp3" }] ∧
    env1.resolve_url "media-source://media_source/local/song.mp3" = "/media/song.mp3" ∧
    ("http://hass.local:8123/media/song.mp3" : String) ≠ "/media/song.mp3" :=
  ⟨rfl, rfl, rfl, by decide⟩
